import Mathlib

/-
  Verification of the Address / State core of the WasteNot repository
  (src/wastenot/models/address.py), as a shallow embedding in Lean 4.

  Python values that can live in an object's `__dict__` or come out of
  `json.loads` are modelled by `PyVal`; JSON documents by `Json`; Python
  exceptions by `PyErr`.  `Address.construct` embeds the dataclass
  `__init__` + `__post_init__` pipeline (field validation, state-registry
  check, geocoding resolution); `Address.serialize` / `Address.deserialize`
  embed `json.dumps(self.__dict__)` / `self.__dict__ = json.loads(s)`.
  The external geocoding HTTP call is modelled by passing the `HttpResponse`
  the server would return as an explicit argument.
-/

namespace WasteNot

/-- A JSON document, as produced by `json.dumps` / consumed by `json.loads`.
Numbers keep Python's int/float distinction; floats are modelled exactly as
rationals (no arithmetic is ever performed on them in this code). -/
inductive Json where
  | null
  | bool (b : Bool)
  | int (n : Int)
  | float (q : Rat)
  | str (s : String)
  | arr (xs : List Json)
  | obj (kvs : List (String × Json))

/-- A Python runtime value, as stored in an object's `__dict__`.  Compared
to `Json` it additionally has tuples (which `json.dumps` encodes as arrays
and which `json.loads` never produces). -/
inductive PyVal where
  | none
  | bool (b : Bool)
  | int (n : Int)
  | float (q : Rat)
  | str (s : String)
  | list (xs : List PyVal)
  | tuple (xs : List PyVal)
  | dict (kvs : List (String × PyVal))

/-- Python exceptions raised by the embedded code.  `valueError` covers both
what the spec calls `ValidationError` and `ResolutionError` (the source
raises `ValueError` with distinguishing messages for both);
`jsonDecodeError` is `json.JSONDecodeError` raised by `json.loads`. -/
inductive PyErr where
  | valueError (msg : String)
  | keyError (key : String)
  | indexError
  | typeError (msg : String)
  | attributeError (attr : String)
  | jsonDecodeError

deriving instance DecidableEq for PyErr

/-- Python truthiness (`bool(v)`), used by `if not getattr(self, field)` and
by the `if self.street2` conditional in `__str__`. -/
def truthy : PyVal → Bool
  | .none => false
  | .bool b => b
  | .int n => decide (n ≠ 0)
  | .float q => decide (q ≠ 0)
  | .str s => decide (s ≠ "")
  | .list xs => !xs.isEmpty
  | .tuple xs => !xs.isEmpty
  | .dict kvs => !kvs.isEmpty

/-- Python `str(v)` for the values interpolated into f-strings here.  Every
claim only ever formats strings and ints (float repr is not modelled: no
claim formats a float). -/
def pyStr : PyVal → String
  | .none => "None"
  | .bool b => if b then "True" else "False"
  | .int n => toString n
  | .float q => toString q
  | .str s => s
  | .list _ => "<list>"
  | .tuple _ => "<tuple>"
  | .dict _ => "<dict>"

mutual

/-- `json.loads` on an already-parsed document: objects become dicts, arrays
become lists.  Note `json.loads` never produces a tuple. -/
def jsonToPy : Json → PyVal
  | .null => .none
  | .bool b => .bool b
  | .int n => .int n
  | .float q => .float q
  | .str s => .str s
  | .arr xs => .list (jsonListToPy xs)
  | .obj kvs => .dict (jsonObjToPy kvs)

/-- Elementwise `jsonToPy` on an array's elements. -/
def jsonListToPy : List Json → List PyVal
  | [] => []
  | x :: xs => jsonToPy x :: jsonListToPy xs

/-- Entrywise `jsonToPy` on an object's members. -/
def jsonObjToPy : List (String × Json) → List (String × PyVal)
  | [] => []
  | (k, v) :: kvs => (k, jsonToPy v) :: jsonObjToPy kvs

end

mutual

/-- `json.dumps` of a Python value (total on the values arising here: all
dict keys are strings).  Tuples are encoded as JSON arrays, exactly as
`json.dumps` does. -/
def pyToJson : PyVal → Json
  | .none => .null
  | .bool b => .bool b
  | .int n => .int n
  | .float q => .float q
  | .str s => .str s
  | .list xs => .arr (pyListToJson xs)
  | .tuple xs => .arr (pyListToJson xs)
  | .dict kvs => .obj (pyObjToJson kvs)

/-- Elementwise `pyToJson` on a list's or tuple's elements. -/
def pyListToJson : List PyVal → List Json
  | [] => []
  | x :: xs => pyToJson x :: pyListToJson xs

/-- Entrywise `pyToJson` on a dict's entries. -/
def pyObjToJson : List (String × PyVal) → List (String × Json)
  | [] => []
  | (k, v) :: kvs => (k, pyToJson v) :: pyObjToJson kvs

end

/-- The text handed to `deserialize`.  A Python string is either valid JSON
(identified with its parse tree) or not; `json.loads` raises
`JSONDecodeError` exactly on the latter. -/
inductive JsonText where
  | valid (j : Json)
  | invalid

/-- `json.loads` on a text: parse failure raises `JSONDecodeError`. -/
def jsonLoads : JsonText → Except PyErr PyVal
  | .invalid => .error .jsonDecodeError
  | .valid j => .ok (jsonToPy j)

/-- Python list/tuple indexing `xs[i]` with negative-index semantics;
out of range raises `IndexError`. -/
def pyIndex (xs : List PyVal) (i : Int) : Except PyErr PyVal :=
  let j : Int := if i < 0 then i + xs.length else i
  if j < 0 then .error .indexError
  else
    match xs.get? j.toNat with
    | some x => .ok x
    | Option.none => .error .indexError

/-- Python subscripting `v[k]` as used by `__get_coordinates`: dict lookup
(raising `KeyError`) and list/tuple indexing (raising `IndexError`). -/
def pySubscript (v : PyVal) (k : PyVal) : Except PyErr PyVal :=
  match v, k with
  | .dict kvs, .str s =>
      match List.lookup s kvs with
      | some x => .ok x
      | Option.none => .error (.keyError s)
  | .list xs, .int i => pyIndex xs i
  | .tuple xs, .int i => pyIndex xs i
  | _, _ => .error (.typeError "object is not subscriptable")

/-- The `State` enum: its members, code → display name
(`NY = "New York"`). -/
def State.members : List (String × String) := [("NY", "New York")]

/-- `State.isValid`: `state in State.__members__`, a pure containment test
on the registry's key set. -/
def State.isValid (state : String) : Bool :=
  (State.members.map Prod.fst).contains state

/-- `State.isValid` as applied to an arbitrary attribute value: membership
of a non-string in the (string-keyed) member dict is `False`. -/
def State.isValidPy : PyVal → Bool
  | .str s => State.isValid s
  | _ => false

/-- The response of the geocoding HTTP GET: a status code and the JSON body
(`response.json()`). -/
structure HttpResponse where
  status : Nat
  body : Json

/-- The `__str__` formula over the five field values:
`f"{street1}{', ' + street2 if street2 else ''}, {city}, {state} {zip}."`
(the concatenation `', ' + street2` assumes `street2` is a string or falsy,
as it is for every address the claims construct). -/
def addrStr (s1 s2 c st z : PyVal) : String :=
  pyStr s1 ++ (if truthy s2 then ", " ++ pyStr s2 else "")
    ++ ", " ++ pyStr c ++ ", " ++ pyStr st ++ " " ++ pyStr z ++ "."

/-- `Address.__get_coordinates`, given the response the geocoding server
returns for the composed search string.  Non-200 raises
`ValueError(f"Could not get coordinates for {self}.")`; otherwise the code
evaluates `response.json()["features"][0]["center"]` and returns the tuple
`(center[1], center[0])`, propagating any `KeyError`/`IndexError`. -/
def getCoordinates (selfStr : String) (resp : HttpResponse) : Except PyErr PyVal :=
  if resp.status ≠ 200 then
    .error (.valueError ("Could not get coordinates for " ++ selfStr ++ "."))
  else do
    let features ← pySubscript (jsonToPy resp.body) (.str "features")
    let f0 ← pySubscript features (.int 0)
    let center ← pySubscript f0 (.str "center")
    let c1 ← pySubscript center (.int 1)
    let c0 ← pySubscript center (.int 0)
    .ok (.tuple [c1, c0])

/-- An `Address` object is its `__dict__`: an insertion-ordered mapping from
attribute names to values.  (Construction produces exactly the six keys
below; `deserialize` may replace this with anything `json.loads` returns.) -/
structure Address where
  dict : List (String × PyVal)

/-- `Address(street1, street2, city, state, zip)`: the dataclass `__init__`
followed by `__post_init__` — required-field truthiness checks in the order
street1, city, state, zip; then the state-registry check; then geocoding.
On success the `__dict__` holds the five fields plus `coordinates`. -/
def Address.construct (s1 s2 c st z : PyVal) (resp : HttpResponse) :
    Except PyErr Address :=
  if ¬ truthy s1 then .error (.valueError "street1 cannot be empty.")
  else if ¬ truthy c then .error (.valueError "city cannot be empty.")
  else if ¬ truthy st then .error (.valueError "state cannot be empty.")
  else if ¬ truthy z then .error (.valueError "zip cannot be empty.")
  else if ¬ State.isValidPy st then
    .error (.valueError (pyStr st ++ " is not a valid state."))
  else
    match getCoordinates (addrStr s1 s2 c st z) resp with
    | .error e => .error e
    | .ok coords =>
        .ok ⟨[("street1", s1), ("street2", s2), ("city", c),
              ("state", st), ("zip", z), ("coordinates", coords)]⟩

/-- `json.dumps(self.__dict__)`. -/
def Address.serialize (a : Address) : JsonText :=
  .valid (.obj (a.dict.map (fun kv => (kv.1, pyToJson kv.2))))

/-- `self.__dict__ = json.loads(json_str)`: parse the text and replace the
whole attribute dict with the result.  No key is required, nothing is
re-validated, and the geocoding lookup is not consulted (the definition
takes no `HttpResponse`).  Assigning a non-dict to `__dict__` raises
`TypeError`. -/
def Address.deserialize (_a : Address) (t : JsonText) : Except PyErr Address :=
  match jsonLoads t with
  | .error e => .error e
  | .ok (.dict kvs) => .ok ⟨kvs⟩
  | .ok _ => .error (.typeError "__dict__ must be set to a dictionary")

/-- Python `getattr(a, attr)`: look the name up in `__dict__`
(`AttributeError` when absent). -/
def Address.getattr (a : Address) (attr : String) : Except PyErr PyVal :=
  match List.lookup attr a.dict with
  | some v => .ok v
  | Option.none => .error (.attributeError attr)

/-- `Address.__str__` on an address object: reads the five field attributes
and applies the `__str__` formula. -/
def Address.strE (a : Address) : Except PyErr String := do
  let s1 ← a.getattr "street1"
  let s2 ← a.getattr "street2"
  let c ← a.getattr "city"
  let st ← a.getattr "state"
  let z ← a.getattr "zip"
  .ok (addrStr s1 s2 c st z)

/-- Flat (non-container) Python values: the types the data model gives the
five caller-supplied fields (text, number, None). -/
def isPrim : PyVal → Bool
  | .none => true
  | .bool _ => true
  | .int _ => true
  | .float _ => true
  | .str _ => true
  | .list _ => false
  | .tuple _ => false
  | .dict _ => false

/-- A geocoding response for `123 Main St, Troy, NY 12180`:
`features[0].center = [-74.0, 40.7]` (longitude first, as Mapbox returns). -/
def resp0 : HttpResponse :=
  ⟨200, .obj [("features", .arr [.obj [("center",
      .arr [.float (-74.0), .float (40.7)])]])]⟩

/-- The address `Address("123 Main St", None, "Troy", "NY", 12180)` as
constructed against `resp0`: coordinates resolved to the tuple
`(40.7, -74.0)`. -/
def addrMain : Address :=
  ⟨[("street1", .str "123 Main St"), ("street2", .none), ("city", .str "Troy"),
    ("state", .str "NY"), ("zip", .int 12180),
    ("coordinates", .tuple [.float (40.7 : Rat), .float (-74.0 : Rat)])]⟩

/-- What `deserialize(serialize(addrMain))` actually leaves in `__dict__`:
identical except that `coordinates` is now a list, JSON having no tuples. -/
def addrMainRT : Address :=
  ⟨[("street1", .str "123 Main St"), ("street2", .none), ("city", .str "Troy"),
    ("state", .str "NY"), ("zip", .int 12180),
    ("coordinates", .list [.float (40.7 : Rat), .float (-74.0 : Rat)])]⟩

/-- The address `Address("123 Main St", "Apt 4", "Troy", "NY", 12180)` as
constructed against `resp0`. -/
def addrApt : Address :=
  ⟨[("street1", .str "123 Main St"), ("street2", .str "Apt 4"), ("city", .str "Troy"),
    ("state", .str "NY"), ("zip", .int 12180),
    ("coordinates", .tuple [.float (40.7 : Rat), .float (-74.0 : Rat)])]⟩

/-- A 200 geocoding response whose `features` array is empty. -/
def respEmpty : HttpResponse := ⟨200, .obj [("features", .arr [])]⟩

/-- A serialized record that violates every construction invariant: empty
`street1`, unregistered `state`, and no `coordinates` (or `city`/`zip`) at
all. -/
def badPayload : Json := .obj [("street1", .str ""), ("state", .str "CA")]

/-- The address object `deserialize` produces from `badPayload`. -/
def badAddr : Address := ⟨[("street1", .str ""), ("state", .str "CA")]⟩

/-- Sequencing a successful `Except` step just feeds the value onward. -/
theorem except_ok_bind {ε α β : Type} (x : α) (f : α → Except ε β) :
    (Except.ok x : Except ε α) >>= f = f x := rfl

/-- Sequencing after a failed `Except` step propagates the error. -/
theorem except_error_bind {ε α β : Type} (e : ε) (f : α → Except ε β) :
    (Except.error e : Except ε α) >>= f = Except.error e := rfl

/-- A flat value survives the dumps/loads round trip unchanged. -/
theorem prim_roundtrip (v : PyVal) (h : isPrim v = true) :
    jsonToPy (pyToJson v) = v := by
  cases v <;> simp [isPrim] at h ⊢ <;> rfl

/-- C3: if any of street1, city, state, zip is falsy (empty, zero, or
absent), construction fails — for every geocoding response — with
`ValueError("<field> cannot be empty.")` naming the first falsy field in
the order street1, city, state, zip. -/
theorem construct_required_field_order (s1 s2 c st z : PyVal) (resp : HttpResponse)
    (h : truthy s1 = false ∨ truthy c = false ∨ truthy st = false ∨ truthy z = false) :
    Address.construct s1 s2 c st z resp = .error (.valueError
      ((if truthy s1 = false then "street1"
        else if truthy c = false then "city"
        else if truthy st = false then "state"
        else "zip") ++ " cannot be empty.")) := by
  by_cases h1 : truthy s1 <;> by_cases h2 : truthy c <;>
    by_cases h3 : truthy st <;> by_cases h4 : truthy z <;>
    simp_all [Address.construct]

/-- C3 witness: an empty `street1` (with `city` also empty) is reported
first, as `ValueError("street1 cannot be empty.")`. -/
theorem construct_required_field_order_witness :
    Address.construct (.str "") .none (.str "") (.str "NY") (.int 12180) respEmpty =
      .error (.valueError "street1 cannot be empty.") :=
  construct_required_field_order (.str "") .none (.str "") (.str "NY") (.int 12180)
    respEmpty (Or.inl rfl)

/-- C4: with all four required fields truthy but the state not in the
registry, construction fails — for every geocoding response, hence before
any lookup is consulted — with `ValueError("<state> is not a valid
state.")` naming the state. -/
theorem construct_invalid_state (s1 s2 c st z : PyVal) (resp : HttpResponse)
    (h1 : truthy s1 = true) (h2 : truthy c = true) (h3 : truthy st = true)
    (h4 : truthy z = true) (h5 : State.isValidPy st = false) :
    Address.construct s1 s2 c st z resp =
      .error (.valueError (pyStr st ++ " is not a valid state.")) := by
  simp [Address.construct, h1, h2, h3, h4, h5]

/-- C4 witness: state `"CA"` is rejected as `ValueError("CA is not a valid
state.")`, whatever the geocoding server would have answered. -/
theorem construct_invalid_state_witness :
    Address.construct (.str "123 Main St") .none (.str "Troy") (.str "CA") (.int 12180)
      respEmpty = .error (.valueError "CA is not a valid state.") :=
  construct_invalid_state (.str "123 Main St") .none (.str "Troy") (.str "CA")
    (.int 12180) respEmpty rfl rfl rfl rfl rfl

/-- C9: `State.isValid` is a (total, pure) Boolean function returning true
exactly on members of the registry's key set; in particular it accepts
`"NY"` and rejects `"CA"`. -/
theorem isValid_membership :
    (∀ s : String, State.isValid s = true ↔ s ∈ State.members.map Prod.fst) ∧
    State.isValid "NY" = true ∧ State.isValid "CA" = false := by
  refine ⟨fun s => ?_, rfl, rfl⟩
  simp [State.isValid]

/-- C7: whenever the resolver succeeds in reading `features[0].center`
(Python subscripting of the parsed 200 response), the stored coordinates
are the tuple `(center[1], center[0])` — latitude first, given a
`[longitude, latitude]` center. -/
theorem getCoordinates_reorders_center (s : String) (resp : HttpResponse)
    (features f0 center c0 c1 : PyVal)
    (hstatus : resp.status = 200)
    (hf : pySubscript (jsonToPy resp.body) (.str "features") = .ok features)
    (h0 : pySubscript features (.int 0) = .ok f0)
    (hc : pySubscript f0 (.str "center") = .ok center)
    (hc1 : pySubscript center (.int 1) = .ok c1)
    (hc0 : pySubscript center (.int 0) = .ok c0) :
    getCoordinates s resp = .ok (.tuple [c1, c0]) := by
  simp [getCoordinates, hstatus, hf, h0, hc, hc1, hc0, except_ok_bind]

/-- C7 witness: a response with `center = [-74.0, 40.7]` yields coordinates
`(40.7, -74.0)`. -/
theorem getCoordinates_reorders_center_witness :
    getCoordinates "123 Main St, Troy, NY 12180." resp0 =
      .ok (.tuple [.float (40.7 : Rat), .float (-74.0 : Rat)]) :=
  getCoordinates_reorders_center "123 Main St, Troy, NY 12180." resp0
    (.list [.dict [("center", .list [.float (-74.0 : Rat), .float (40.7 : Rat)])]])
    (.dict [("center", .list [.float (-74.0 : Rat), .float (40.7 : Rat)])])
    (.list [.float (-74.0 : Rat), .float (40.7 : Rat)])
    (.float (-74.0 : Rat)) (.float (40.7 : Rat))
    rfl rfl rfl rfl rfl rfl

/-- C2 amended: with validation passing, a non-200 status fails
construction with `ValueError("Could not get coordinates for <formatted
address>.")`, while a 200 response whose `features` array is empty fails
construction with `IndexError` (not with the resolution message); in both
cases the result is an error, so no Address is observable. -/
theorem construct_geocoding_failure (s1 s2 c st z : PyVal) (resp : HttpResponse)
    (h1 : truthy s1 = true) (h2 : truthy c = true) (h3 : truthy st = true)
    (h4 : truthy z = true) (h5 : State.isValidPy st = true) :
    (resp.status ≠ 200 →
      Address.construct s1 s2 c st z resp =
        .error (.valueError ("Could not get coordinates for "
          ++ addrStr s1 s2 c st z ++ "."))) ∧
    (resp.status = 200 →
      pySubscript (jsonToPy resp.body) (.str "features") = .ok (.list []) →
      Address.construct s1 s2 c st z resp = .error .indexError) := by
  constructor
  · intro hs
    simp [Address.construct, h1, h2, h3, h4, h5, getCoordinates, hs]
  · intro hs hf
    have hg : getCoordinates (addrStr s1 s2 c st z) resp = .error .indexError := by
      simp only [getCoordinates, hs]
      rw [hf]
      rfl
    simp [Address.construct, h1, h2, h3, h4, h5, hg]

/-- C2 witness: both failure shapes at concrete inputs — status 404 gives
the resolution `ValueError`; an empty `features` array gives `IndexError`. -/
theorem construct_geocoding_failure_witness :
    Address.construct (.str "A") .none (.str "B") (.str "NY") (.int 1)
      ⟨404, .obj []⟩ =
      .error (.valueError "Could not get coordinates for A, B, NY 1..") ∧
    Address.construct (.str "A") .none (.str "B") (.str "NY") (.int 1)
      respEmpty = .error .indexError :=
  ⟨(construct_geocoding_failure (.str "A") .none (.str "B") (.str "NY") (.int 1)
      ⟨404, .obj []⟩ rfl rfl rfl rfl rfl).1 (by decide),
   (construct_geocoding_failure (.str "A") .none (.str "B") (.str "NY") (.int 1)
      respEmpty rfl rfl rfl rfl rfl).2 rfl rfl⟩

/-- C2 counterexample: with validation passing and a 200 response carrying
an empty `features` array, construction fails with `IndexError`, which is
not the claimed `ResolutionError("Could not get coordinates for <formatted
address>")` (under either reading of the trailing period). -/
theorem geocoding_empty_features_cex :
    Address.construct (.str "A") .none (.str "B") (.str "NY") (.int 1) respEmpty =
      .error .indexError ∧
    PyErr.indexError ≠ PyErr.valueError "Could not get coordinates for A, B, NY 1.." ∧
    PyErr.indexError ≠ PyErr.valueError "Could not get coordinates for A, B, NY 1." :=
  ⟨rfl, by decide, by decide⟩

/-- C5 amended: `deserialize` fails with `json.JSONDecodeError` exactly
when the text is not parseable as JSON; a parseable JSON object always
deserializes successfully, whether or not any required key is present. -/
theorem deserialize_format_error (a : Address) (kvs : List (String × Json)) :
    Address.deserialize a .invalid = .error .jsonDecodeError ∧
    Address.deserialize a (.valid (.obj kvs)) = .ok ⟨jsonObjToPy kvs⟩ :=
  ⟨rfl, rfl⟩

/-- C5 counterexample: deserializing the well-formed record `{}` — with
every required Address key absent — succeeds instead of failing with
`FormatError`. -/
theorem deserialize_missing_keys_cex :
    Address.deserialize addrMain (.valid (.obj [])) = .ok ⟨[]⟩ ∧
    (Address.deserialize addrMain (.valid (.obj []))).isOk = true :=
  ⟨rfl, rfl⟩

/-- C6: on a well-formed serialized record, `deserialize` replaces the
whole `__dict__` in one step with exactly the decoded entries — the result
is the same whatever the target's previous fields were — and by its very
signature consults no geocoding response and re-runs no validation. -/
theorem deserialize_full_replacement (a b : Address) (kvs : List (String × Json)) :
    Address.deserialize a (.valid (.obj kvs)) = .ok ⟨jsonObjToPy kvs⟩ ∧
    Address.deserialize a (.valid (.obj kvs)) =
      Address.deserialize b (.valid (.obj kvs)) :=
  ⟨rfl, rfl⟩

/-- C10: `deserialize` accepts every JSON object regardless of its keys and
installs its entries verbatim; concretely, a payload with an empty
`street1`, an unregistered state `"CA"`, and no `coordinates` key at all
yields an observable Address violating the construction invariants. -/
theorem deserialize_trusts_payload :
    (∀ (a : Address) (kvs : List (String × Json)),
      Address.deserialize a (.valid (.obj kvs)) = .ok ⟨jsonObjToPy kvs⟩) ∧
    Address.deserialize addrMain (.valid badPayload) = .ok badAddr ∧
    badAddr.getattr "street1" = .ok (.str "") ∧
    truthy (.str "") = false ∧
    badAddr.getattr "state" = .ok (.str "CA") ∧
    State.isValid "CA" = false ∧
    List.lookup "coordinates" badAddr.dict = Option.none :=
  ⟨fun _ _ => rfl, rfl, rfl, rfl, rfl, rfl, rfl⟩

/-- C8: every successfully constructed Address formats as
`"<street1>[, <street2>], <city>, <state> <zip>."`, the street2 segment
appearing exactly when street2 is truthy. -/
theorem construct_str_format (s1 s2 c st z : PyVal) (resp : HttpResponse) (a : Address)
    (h : Address.construct s1 s2 c st z resp = .ok a) :
    a.strE = .ok (pyStr s1 ++ (if truthy s2 then ", " ++ pyStr s2 else "")
      ++ ", " ++ pyStr c ++ ", " ++ pyStr st ++ " " ++ pyStr z ++ ".") := by
  unfold Address.construct at h
  split at h
  · exact Except.noConfusion h
  split at h
  · exact Except.noConfusion h
  split at h
  · exact Except.noConfusion h
  split at h
  · exact Except.noConfusion h
  split at h
  · exact Except.noConfusion h
  split at h
  · exact Except.noConfusion h
  injection h with h
  subst h
  rfl

/-- C8 witness: `Address("123 Main St", None, "Troy", "NY", 12180)` formats
as `"123 Main St, Troy, NY 12180."`, and with `street2 = "Apt 4"` as
`"123 Main St, Apt 4, Troy, NY 12180."`. -/
theorem construct_str_format_witness :
    Address.strE addrMain = .ok "123 Main St, Troy, NY 12180." ∧
    Address.strE addrApt = .ok "123 Main St, Apt 4, Troy, NY 12180." :=
  ⟨(construct_str_format (.str "123 Main St") .none (.str "Troy") (.str "NY")
      (.int 12180) resp0 addrMain rfl).trans rfl,
   (construct_str_format (.str "123 Main St") (.str "Apt 4") (.str "Troy") (.str "NY")
      (.int 12180) resp0 addrApt rfl).trans rfl⟩

/-- C1 amended: for an Address constructed from flat (string / number /
None) field values whose resolved center entries are flat numbers,
`Deserialize(Serialize(a))` succeeds and reproduces street1, street2,
city, state and zip exactly, but stores `coordinates` as the JSON-decoded
list `[latitude, longitude]` — elementwise identical to, yet a different
Python value from, the original tuple. -/
theorem serialize_roundtrip_detuples (s1 s2 c st z c0 c1 : PyVal)
    (resp : HttpResponse) (a : Address)
    (hp1 : isPrim s1 = true) (hp2 : isPrim s2 = true) (hp3 : isPrim c = true)
    (hp4 : isPrim st = true) (hp5 : isPrim z = true)
    (hq0 : isPrim c0 = true) (hq1 : isPrim c1 = true)
    (hg : getCoordinates (addrStr s1 s2 c st z) resp = .ok (.tuple [c1, c0]))
    (h : Address.construct s1 s2 c st z resp = .ok a) :
    Address.deserialize a (Address.serialize a) =
      .ok ⟨[("street1", s1), ("street2", s2), ("city", c), ("state", st),
            ("zip", z), ("coordinates", .list [c1, c0])]⟩ := by
  unfold Address.construct at h
  split at h
  · exact Except.noConfusion h
  split at h
  · exact Except.noConfusion h
  split at h
  · exact Except.noConfusion h
  split at h
  · exact Except.noConfusion h
  split at h
  · exact Except.noConfusion h
  split at h
  · rename_i e heq
    rw [hg] at heq
    exact Except.noConfusion heq
  rename_i coords heq
  rw [hg] at heq
  injection heq with heq
  subst heq
  injection h with h
  subst h
  simp [Address.serialize, Address.deserialize, jsonLoads, jsonToPy, jsonObjToPy,
    jsonListToPy, pyToJson, pyListToJson, pyObjToJson,
    prim_roundtrip s1 hp1, prim_roundtrip s2 hp2, prim_roundtrip c hp3,
    prim_roundtrip st hp4, prim_roundtrip z hp5,
    prim_roundtrip c0 hq0, prim_roundtrip c1 hq1]

/-- C1 witness: the round trip of `Address("123 Main St", None, "Troy",
"NY", 12180)` reproduces the five fields and turns the coordinates tuple
into the elementwise-equal list. -/
theorem serialize_roundtrip_detuples_witness :
    Address.deserialize addrMain (Address.serialize addrMain) = .ok addrMainRT :=
  serialize_roundtrip_detuples (.str "123 Main St") .none (.str "Troy") (.str "NY")
    (.int 12180) (.float (-74.0 : Rat)) (.float (40.7 : Rat)) resp0 addrMain
    rfl rfl rfl rfl rfl rfl rfl rfl rfl

/-- C1 counterexample: for the successfully constructed
`Address("123 Main St", None, "Troy", "NY", 12180)`, the deserialized
round trip differs from the original in the `coordinates` field — the
original holds the tuple `(40.7, -74.0)`, the round trip the list
`[40.7, -74.0]`, and in Python a tuple never equals a list — so
field-for-field equality including `coordinates` fails. -/
theorem roundtrip_exact_equality_cex :
    Address.construct (.str "123 Main St") .none (.str "Troy") (.str "NY")
      (.int 12180) resp0 = .ok addrMain ∧
    Address.deserialize addrMain (Address.serialize addrMain) = .ok addrMainRT ∧
    List.lookup "coordinates" addrMain.dict =
      some (.tuple [.float (40.7 : Rat), .float (-74.0 : Rat)]) ∧
    List.lookup "coordinates" addrMainRT.dict =
      some (.list [.float (40.7 : Rat), .float (-74.0 : Rat)]) ∧
    List.lookup "coordinates" addrMainRT.dict ≠
      List.lookup "coordinates" addrMain.dict ∧
    addrMainRT ≠ addrMain :=
  ⟨rfl, rfl, rfl, rfl,
   by
    have h1 : List.lookup "coordinates" addrMainRT.dict =
        some (PyVal.list [.float (40.7 : Rat), .float (-74.0 : Rat)]) := rfl
    have h2 : List.lookup "coordinates" addrMain.dict =
        some (PyVal.tuple [.float (40.7 : Rat), .float (-74.0 : Rat)]) := rfl
    rw [h1, h2]
    simp,
   by simp [addrMain, addrMainRT]⟩

/-- C5 witness: at a concrete target and payload, unparseable text raises
`JSONDecodeError`, while the object `{"city": "Troy"}` deserializes
successfully though required keys are missing. -/
theorem deserialize_format_error_witness :
    Address.deserialize badAddr .invalid = .error .jsonDecodeError ∧
    Address.deserialize badAddr (.valid (.obj [("city", .str "Troy")])) =
      .ok ⟨[("city", .str "Troy")]⟩ :=
  ⟨(deserialize_format_error badAddr [("city", .str "Troy")]).1,
   (deserialize_format_error badAddr [("city", .str "Troy")]).2⟩

/-- C6 witness: deserializing `{"zip": 7}` into two different addresses
replaces both field sets with exactly the decoded entry. -/
theorem deserialize_full_replacement_witness :
    Address.deserialize addrApt (.valid (.obj [("zip", .int 7)])) =
      .ok ⟨[("zip", .int 7)]⟩ ∧
    Address.deserialize addrApt (.valid (.obj [("zip", .int 7)])) =
      Address.deserialize badAddr (.valid (.obj [("zip", .int 7)])) :=
  ⟨(deserialize_full_replacement addrApt badAddr [("zip", .int 7)]).1,
   (deserialize_full_replacement addrApt badAddr [("zip", .int 7)]).2⟩

/-- C9 witness: the membership characterisation instantiated at `"TX"`,
together with the registry's concrete answers for `"NY"` and `"CA"`. -/
theorem isValid_membership_witness :
    (State.isValid "TX" = true ↔ "TX" ∈ State.members.map Prod.fst) ∧
    State.isValid "NY" = true ∧ State.isValid "CA" = false :=
  ⟨isValid_membership.1 "TX", isValid_membership.2.1, isValid_membership.2.2⟩

/-- C10 witness: the universally quantified acceptance instantiated at a
payload assigning the falsy integer `0` to `street1`. -/
theorem deserialize_trusts_payload_witness :
    Address.deserialize addrApt (.valid (.obj [("street1", .int 0)])) =
      .ok ⟨[("street1", .int 0)]⟩ :=
  deserialize_trusts_payload.1 addrApt [("street1", .int 0)]

end WasteNot
